import Mathlib

/-!
Verification of the DEVSITES404 backend (FastAPI + MongoDB).

Shallow embedding of `backend/business_logic.py`, `backend/database.py`,
`backend/models.py` and `backend/server.py`.

Money is modelled as `ℚ`; Python's `round(x, 2)` is modelled as rounding to
the nearest multiple of 1/100 (all values reachable in the pricing engine
are exact multiples of 1/100, where half-up and banker's rounding agree).
Timestamps (`datetime.utcnow()`) are modelled as `Nat` values passed in
explicitly.  MongoDB's generated `_id` in an `insert_one` result
(`result.inserted_id`) is modelled as an `Option String` parameter: `none`
models a falsy `inserted_id`, `some s` the string form of a generated id.
The stores themselves are lists of records carried in a `DBState`.
-/

namespace DevSites

/-- Money values, embedded exactly as rationals. -/
abbrev Money := ℚ

/-- Python `round(x, 2)`: round to two decimal places. -/
def round2 (x : Money) : Money := (round (x * 100) : ℤ) / 100

/-- Lookup in a string-keyed association list, modelling a Python dict. -/
def dict_lookup (key : String) : List (String × α) → Option α
  | [] => none
  | (k, v) :: rest => if key = k then some v else dict_lookup key rest

/-- The `base_prices` dict of `calculate_project_cost`. -/
def base_prices : List (String × Money) := [("basic", 49.99), ("standard", 69.99)]

/-- `domain_cost` constant of `calculate_project_cost`. -/
def domain_cost : Money := 19.99

/-- `database_cost` constant of `calculate_project_cost`. -/
def database_cost : Money := 29.99

/-- `business_logic.calculate_project_cost`: base price looked up with
fallback to the `"basic"` entry, plus selected add-on prices, rounded to
two decimals. -/
def calculate_project_cost (project_type : String)
    (include_domain include_database : Bool) : Money :=
  let total_cost := (dict_lookup project_type base_prices).getD
    ((dict_lookup "basic" base_prices).getD 0)
  let total_cost := if include_domain then total_cost + domain_cost else total_cost
  let total_cost := if include_database then total_cost + database_cost else total_cost
  round2 total_cost

/-- `business_logic.validate_project_type`: membership in `["basic", "standard"]`. -/
def validate_project_type (project_type : String) : Bool :=
  (["basic", "standard"] : List String).contains project_type

/-- The `"basic"` entry of the `features` dict in `get_project_features`. -/
def basic_features : List String :=
  ["Up to 3 pages", "Responsive design", "Basic contact form", "SEO optimization",
   "Mobile-friendly", "2-week delivery", "Basic support"]

/-- The `"standard"` entry of the `features` dict in `get_project_features`. -/
def standard_features : List String :=
  ["3+ pages (unlimited)", "Advanced responsive design", "Multiple contact forms",
   "Advanced SEO optimization", "Performance optimization",
   "Social media integration", "2-week delivery", "Priority support"]

/-- The `features` dict of `get_project_features`. -/
def features_dict : List (String × List String) :=
  [("basic", basic_features), ("standard", standard_features)]

/-- `business_logic.get_project_features`: per-type catalog with fallback to
the `"basic"` list. -/
def get_project_features (project_type : String) : List String :=
  (dict_lookup project_type features_dict).getD
    ((dict_lookup "basic" features_dict).getD [])

/-- One add-on entry of the dict returned by `get_addon_features`. -/
structure Addon where
  name : String
  price : Money
  features : List String
deriving DecidableEq

/-- The dict returned by `get_addon_features`, with its two fixed keys
`"domain"` and `"database"` as fields. -/
structure AddonCatalog where
  domain : Addon
  database : Addon
deriving DecidableEq

/-- `business_logic.get_addon_features`. -/
def get_addon_features : AddonCatalog :=
  { domain :=
      { name := "Domain Setup"
        price := 19.99
        features := ["Domain registration", "DNS configuration",
                     "SSL certificate setup", "Email forwarding setup"] }
    database :=
      { name := "Database Setup"
        price := 29.99
        features := ["User registration system", "Email & name storage",
                     "Basic user profiles", "Data backup included"] } }

/-- Python `str.title()` on a list of characters: uppercase a letter that
does not follow a letter, lowercase a letter that does. -/
def titleChars : List Char → Bool → List Char
  | [], _ => []
  | c :: cs, prevAlpha =>
    if c.isAlpha then
      (if prevAlpha then c.toLower else c.toUpper) :: titleChars cs true
    else
      c :: titleChars cs false

/-- Python `str.title()`. -/
def pyTitle (s : String) : String := ⟨titleChars s.data false⟩

/-- One entry of the `addons` list built by `generate_project_summary`. -/
structure SummaryAddon where
  name : String
  cost : Money
  features : List String
deriving DecidableEq

/-- The summary dict returned by `generate_project_summary`. -/
structure Summary where
  project_type : String
  base_cost : Money
  total_cost : Money
  features : List String
  addons : List SummaryAddon
  estimated_timeline : String
  support_level : String
deriving DecidableEq

/-- `business_logic.generate_project_summary`. -/
def generate_project_summary (project_type : String)
    (include_domain include_database : Bool) : Summary :=
  let base_features := get_project_features project_type
  let addon_features := get_addon_features
  let total_cost := calculate_project_cost project_type include_domain include_database
  let summary : Summary :=
    { project_type := pyTitle project_type
      base_cost := if project_type = "basic" then 49.99 else 69.99
      total_cost := total_cost
      features := base_features
      addons := []
      estimated_timeline := "14 days"
      support_level := if project_type = "basic" then "Basic" else "Priority" }
  let summary :=
    if include_domain then
      { summary with
          addons := summary.addons ++
            [{ name := addon_features.domain.name
               cost := addon_features.domain.price
               features := addon_features.domain.features }]
          features := summary.features ++
            addon_features.domain.features.map (fun f => "✓ " ++ f) }
    else summary
  let summary :=
    if include_database then
      { summary with
          addons := summary.addons ++
            [{ name := addon_features.database.name
               cost := addon_features.database.price
               features := addon_features.database.features }]
          features := summary.features ++
            addon_features.database.features.map (fun f => "✓ " ++ f) }
    else summary
  summary

/-! ## Record types (`models.py`) -/

/-- `models.ContactSubmission`. -/
structure ContactSubmission where
  id : String
  name : String
  email : String
  company : Option String
  project : Option String
  message : String
  budget : Option String
  status : String
  created_at : Nat
  updated_at : Nat
deriving DecidableEq

/-- `models.ContactSubmissionCreate`: the client-supplied contact fields. -/
structure ContactSubmissionCreate where
  name : String
  email : String
  company : Option String
  project : Option String
  message : String
  budget : Option String
deriving DecidableEq

/-- `models.ProjectInquiry`. -/
structure ProjectInquiry where
  id : String
  name : String
  email : String
  project_type : String
  include_domain : Bool
  include_database : Bool
  estimated_cost : Money
  additional_details : Option String
  status : String
  created_at : Nat
  updated_at : Nat
deriving DecidableEq

/-- `models.ProjectInquiryCreate`: the client-supplied inquiry fields. -/
structure ProjectInquiryCreate where
  name : String
  email : String
  project_type : String
  include_domain : Bool
  include_database : Bool
  additional_details : Option String
deriving DecidableEq

/-- `models.NewsletterSubscriber`. -/
structure NewsletterSubscriber where
  id : String
  email : String
  subscribed : Bool
  created_at : Nat
  updated_at : Nat
deriving DecidableEq

/-- `models.ProjectInquiryResponse`. -/
structure ProjectInquiryResponse where
  success : Bool
  estimated_cost : Money
  message : String
  id : String
deriving DecidableEq

/-- `models.NewsletterResponse`. -/
structure NewsletterResponse where
  success : Bool
  message : String
deriving DecidableEq

/-- The stats dict built by `database.get_company_stats`. -/
structure Stats where
  projects_completed : Nat
  client_satisfaction : Nat
  average_turnaround : Nat
  total_contacts : Nat
  total_inquiries : Nat
  newsletter_subscribers : Nat
deriving DecidableEq

/-- The three MongoDB collections used by `database.Database`. -/
structure DBState where
  contacts : List ContactSubmission
  inquiries : List ProjectInquiry
  subscribers : List NewsletterSubscriber
deriving DecidableEq

/-! ## Record store (`database.py`) -/

/-- `ContactSubmission(**contact_data)` with model defaults: fresh uuid id,
`status="new"`, `created_at = updated_at = now`. -/
def mk_contact (data : ContactSubmissionCreate) (uuid : String) (now : Nat) :
    ContactSubmission :=
  { id := uuid, name := data.name, email := data.email, company := data.company
    project := data.project, message := data.message, budget := data.budget
    status := "new", created_at := now, updated_at := now }

/-- `database.create_contact`: builds the record, inserts its dict into the
`contacts` collection, then overwrites the in-memory record's `id` with
`str(result.inserted_id)` when `inserted_id` is truthy, and returns that
in-memory record.  The persisted document keeps the original `id`. -/
def create_contact (st : DBState) (data : ContactSubmissionCreate)
    (uuid : String) (now : Nat) (insertedId : Option String) :
    DBState × ContactSubmission :=
  let contact := mk_contact data uuid now
  let st := { st with contacts := st.contacts ++ [contact] }
  let contact := { contact with id := insertedId.getD contact.id }
  (st, contact)

/-- Comparison used by `sort("created_at", -1)`: descending creation time. -/
def byCreatedDesc (a b : ContactSubmission) : Prop :=
  b.created_at ≤ a.created_at

instance : DecidableRel byCreatedDesc := fun a b => Nat.decLe b.created_at a.created_at

instance : IsTotal ContactSubmission byCreatedDesc :=
  ⟨fun a b => Nat.le_total b.created_at a.created_at⟩

instance : IsTrans ContactSubmission byCreatedDesc :=
  ⟨fun _ _ _ hab hbc => le_trans hbc hab⟩

/-- `database.get_contacts`: MongoDB applies `sort` before `skip` before
`limit` regardless of cursor-method chaining order, so the page is
`take limit` of `drop skip` of the collection sorted by `created_at`
descending. -/
def get_contacts (st : DBState) (skip limit : Nat) : List ContactSubmission :=
  (((st.contacts.insertionSort byCreatedDesc).drop skip).take limit)

/-- `database.update_contact_status`: `update_one({"id": contact_id}, ...)`
updates the first matching document, setting `status` and `updated_at`. -/
def set_status_first (contact_id status : String) (now : Nat) :
    List ContactSubmission → List ContactSubmission
  | [] => []
  | c :: rest =>
    if c.id = contact_id then { c with status := status, updated_at := now } :: rest
    else c :: set_status_first contact_id status now rest

/-- `database.update_contact_status`: returns whether a matching record was
modified (`modified_count > 0`). -/
def update_contact_status (st : DBState) (contact_id status : String) (now : Nat) :
    DBState × Bool :=
  let matched := st.contacts.any (fun c => c.id = contact_id)
  ({ st with contacts := set_status_first contact_id status now st.contacts }, matched)

/-- `ProjectInquiry(**inquiry_data)` where `inquiry_data` is the create
payload plus a precomputed `estimated_cost`. -/
def mk_project_inquiry (data : ProjectInquiryCreate) (est : Money)
    (uuid : String) (now : Nat) : ProjectInquiry :=
  { id := uuid, name := data.name, email := data.email
    project_type := data.project_type, include_domain := data.include_domain
    include_database := data.include_database, estimated_cost := est
    additional_details := data.additional_details, status := "pending"
    created_at := now, updated_at := now }

/-- `database.create_project_inquiry`: same insert-then-adopt-id pattern as
`create_contact`. -/
def create_project_inquiry (st : DBState) (data : ProjectInquiryCreate)
    (est : Money) (uuid : String) (now : Nat) (insertedId : Option String) :
    DBState × ProjectInquiry :=
  let inquiry := mk_project_inquiry data est uuid now
  let st := { st with inquiries := st.inquiries ++ [inquiry] }
  let inquiry := { inquiry with id := insertedId.getD inquiry.id }
  (st, inquiry)

/-- `update_one({"email": email}, {"$set": {"subscribed": True,
"updated_at": now}})`: updates the first subscriber with that email. -/
def resubscribe_first (email : String) (now : Nat) :
    List NewsletterSubscriber → List NewsletterSubscriber
  | [] => []
  | s :: rest =>
    if s.email = email then { s with subscribed := true, updated_at := now } :: rest
    else s :: resubscribe_first email now rest

/-- `database.subscribe_newsletter`: tries to insert a fresh subscriber; the
unique index on `email` makes the insert raise a duplicate-key error exactly
when a subscriber with that email already exists, in which case the existing
record is updated (`subscribed=true`, fresh `updated_at`), re-read with
`find_one({"email": email})` and returned.  The returned record is `none`
only if `find_one` finds nothing, which the duplicate-key branch makes
impossible. -/
def subscribe_newsletter (st : DBState) (email : String)
    (uuid : String) (now : Nat) (insertedId : Option String) :
    DBState × Option NewsletterSubscriber :=
  if st.subscribers.any (fun s => s.email = email) then
    ({ st with subscribers := resubscribe_first email now st.subscribers },
      (resubscribe_first email now st.subscribers).find?
        (fun s => decide (s.email = email)))
  else
    let subscriber : NewsletterSubscriber :=
      { id := uuid, email := email, subscribed := true
        created_at := now, updated_at := now }
    let st := { st with subscribers := st.subscribers ++ [subscriber] }
    (st, some { subscriber with id := insertedId.getD subscriber.id })

/-- The default stats dict of `database.get_company_stats`'s except branch. -/
def default_stats : Stats :=
  { projects_completed := 100, client_satisfaction := 100, average_turnaround := 14
    total_contacts := 0, total_inquiries := 0, newsletter_subscribers := 0 }

/-- `database.get_company_stats`: counts the collections and adds the fixed
constants; any failure of the underlying queries (modelled by
`storeOk = false`) is caught inside the function, which then returns
`default_stats` instead of raising. -/
def get_company_stats (st : DBState) (storeOk : Bool) : Stats :=
  if storeOk then
    { projects_completed := st.inquiries.length + 85
      client_satisfaction := 100
      average_turnaround := 14
      total_contacts := st.contacts.length
      total_inquiries := st.inquiries.length
      newsletter_subscribers := (st.subscribers.filter (fun s => s.subscribed)).length }
  else
    default_stats

/-! ## Request handlers (`server.py`) -/

/-- `fastapi.HTTPException` with status code and detail. -/
structure HTTPError where
  status_code : Nat
  detail : String
deriving DecidableEq

/-- `server.submit_project_inquiry`: rejects invalid project types with a
400 before touching the store; a store failure during the insert (modelled
by `storeOk = false`) is caught and re-raised as a 500; otherwise the cost
is computed, the inquiry persisted, and a success response returned. -/
def submit_project_inquiry (st : DBState) (data : ProjectInquiryCreate)
    (uuid : String) (now : Nat) (storeOk : Bool) (insertedId : Option String) :
    DBState × Except HTTPError ProjectInquiryResponse :=
  if validate_project_type data.project_type = false then
    (st, .error { status_code := 400, detail := "Invalid project type" })
  else
    let estimated_cost :=
      calculate_project_cost data.project_type data.include_domain data.include_database
    if storeOk = false then
      (st, .error { status_code := 500, detail := "Failed to submit project inquiry" })
    else
      let r := create_project_inquiry st data estimated_cost uuid now insertedId
      (r.1, .ok
        { success := true
          estimated_cost := estimated_cost
          message := "We\x27ll prepare a detailed proposal and send it to you within 24 hours."
          id := r.2.id })

/-- `server.subscribe_newsletter`: the whole body is wrapped in a
try/except that returns a success-shaped `NewsletterResponse` even when the
store raises (`storeOk = false`), so the route never fails observably. -/
def subscribe_newsletter_api (st : DBState) (email : String)
    (uuid : String) (now : Nat) (storeOk : Bool) (insertedId : Option String) :
    DBState × NewsletterResponse :=
  if storeOk then
    let r := subscribe_newsletter st email uuid now insertedId
    (r.1, { success := true, message := "Successfully subscribed to our newsletter!" })
  else
    (st, { success := true, message := "Thank you for your interest! We\x27ll keep you updated." })

/-- `server.get_company_stats`: calls the store's stats query.  The store
function catches every underlying failure itself and returns
`default_stats`, so the handler's own except branch is unreachable and the
route always returns a stats object, never an error. -/
def get_company_stats_api (st : DBState) (storeOk : Bool) :
    Except HTTPError Stats :=
  .ok (get_company_stats st storeOk)

/-- `server.get_project_summary`: rejects invalid project types with a 400,
otherwise returns the pure summary. -/
def get_project_summary (project_type : String)
    (include_domain include_database : Bool) : Except HTTPError Summary :=
  if validate_project_type project_type = false then
    .error { status_code := 400, detail := "Invalid project type" }
  else
    .ok (generate_project_summary project_type include_domain include_database)

/-- Spec-side cost formula for claim C1, written from the spec's words:
base price by case analysis (49.99 for `"basic"`, 69.99 for `"standard"`,
the Basic price otherwise) plus the two optional add-on prices, rounded to
2 decimal places. -/
def spec_cost (project_type : String) (include_domain include_database : Bool) :
    Money :=
  round2 ((if project_type = "basic" then 49.99
           else if project_type = "standard" then 69.99 else 49.99)
    + (if include_domain then 19.99 else 0)
    + (if include_database then 29.99 else 0))

/-- The empty store, used to instantiate witnesses. -/
def emptyDB : DBState := { contacts := [], inquiries := [], subscribers := [] }

/-! ## Helper lemmas -/

/-- Rounding to two decimals is the identity on exact multiples of 1/100. -/
theorem round2_cents (k : ℤ) : round2 ((k : ℚ) / 100) = (k : ℚ) / 100 := by
  unfold round2
  rw [div_mul_cancel₀ _ (by norm_num : (100 : ℚ) ≠ 0), round_intCast]

/-- Rounding to two decimals fixes any value that is an exact number of cents. -/
theorem round2_eq_self (x : Money) (k : ℤ) (h : x = (k : ℚ) / 100) :
    round2 x = x := by
  rw [h, round2_cents]

/-- Evaluate `round2` on an exact number of cents. -/
theorem round2_val (x y : Money) (k : ℤ) (hx : x = (k : ℚ) / 100)
    (hy : y = (k : ℚ) / 100) : round2 x = y := by
  rw [hx, round2_cents, ← hy]

/-- The source's cost function agrees everywhere with the spec's formula. -/
theorem calculate_eq_spec (t : String) (dom db : Bool) :
    calculate_project_cost t dom db = spec_cost t dom db := by
  unfold calculate_project_cost spec_cost
  by_cases h1 : t = "basic"
  · subst h1
    cases dom <;> cases db <;>
      simp [dict_lookup, base_prices, domain_cost, database_cost]
  · by_cases h2 : t = "standard"
    · subst h2
      cases dom <;> cases db <;>
        simp [dict_lookup, base_prices, domain_cost, database_cost, h1]
    · cases dom <;> cases db <;>
        simp [dict_lookup, base_prices, domain_cost, database_cost, h1, h2]

theorem cost_basic_ff : calculate_project_cost "basic" false false = 49.99 := by
  unfold calculate_project_cost
  simp [dict_lookup, base_prices]
  exact round2_val _ _ 4999 (by norm_num) (by norm_num)

theorem cost_standard_tt : calculate_project_cost "standard" true true = 119.97 := by
  unfold calculate_project_cost
  simp [dict_lookup, base_prices, domain_cost, database_cost]
  exact round2_val _ _ 11997 (by norm_num) (by norm_num)

theorem cost_standard_tf : calculate_project_cost "standard" true false = 89.98 := by
  unfold calculate_project_cost
  simp [dict_lookup, base_prices, domain_cost, database_cost]
  exact round2_val _ _ 8998 (by norm_num) (by norm_num)

theorem cost_unknown (t : String) (dom db : Bool)
    (h1 : t ≠ "basic") (h2 : t ≠ "standard") :
    calculate_project_cost t dom db
      = 49.99 + (if dom then 19.99 else 0) + (if db then 29.99 else 0) := by
  unfold calculate_project_cost
  simp [dict_lookup, base_prices, h1, h2, domain_cost, database_cost]
  cases dom <;> cases db
  · exact round2_val _ _ 4999 (by norm_num) (by norm_num)
  · exact round2_val _ _ 7998 (by norm_num) (by norm_num)
  · exact round2_val _ _ 6998 (by norm_num) (by norm_num)
  · exact round2_val _ _ 9997 (by norm_num) (by norm_num)

/-- `update_one` on the subscribers collection leaves an unmatched prefix
untouched. -/
theorem resubscribe_first_append (l tail : List NewsletterSubscriber)
    (email : String) (now : Nat) (h : ∀ s ∈ l, s.email ≠ email) :
    resubscribe_first email now (l ++ tail)
      = l ++ resubscribe_first email now tail := by
  induction l with
  | nil => rfl
  | cons s rest ih =>
    simp only [List.cons_append, resubscribe_first,
      if_neg (h s (List.mem_cons_self s rest))]
    exact congrArg (fun x => s :: x) (ih (fun x hx => h x (List.mem_cons_of_mem s hx)))

/-- `find_one` on the subscribers collection skips an unmatched prefix. -/
theorem find_subscriber_append (l tail : List NewsletterSubscriber)
    (email : String) (h : ∀ s ∈ l, s.email ≠ email) :
    (l ++ tail).find? (fun s => decide (s.email = email))
      = tail.find? (fun s => decide (s.email = email)) := by
  induction l with
  | nil => rfl
  | cons s rest ih =>
    simp only [List.cons_append, List.find?]
    rw [decide_eq_false (h s (List.mem_cons_self s rest))]
    exact ih (fun x hx => h x (List.mem_cons_of_mem s hx))

/-! ## Claim theorems -/

/-- C1: `calculate_project_cost` returns base price (49.99 for `"basic"`,
69.99 for `"standard"`, the Basic price with no error for any other string)
plus 19.99 when the domain add-on is selected plus 29.99 when the database
add-on is selected, rounded to two decimals; in particular the three
reference values of the spec hold. -/
theorem C1_calculate_project_cost :
    (∀ t dom db, calculate_project_cost t dom db = spec_cost t dom db) ∧
    calculate_project_cost "basic" false false = 49.99 ∧
    calculate_project_cost "standard" true true = 119.97 ∧
    ∀ t, t ≠ "basic" → t ≠ "standard" →
      calculate_project_cost t false false = 49.99 := by
  refine ⟨calculate_eq_spec, cost_basic_ff, cost_standard_tt, ?_⟩
  intro t h1 h2
  rw [cost_unknown t false false h1 h2]
  norm_num

/-- Witness for C1 at the unrecognized project type `"premium"`. -/
theorem C1_calculate_project_cost_witness :
    calculate_project_cost "premium" false false = 49.99 :=
  C1_calculate_project_cost.2.2.2 "premium" (by decide) (by decide)

/-- C2: a successfully created `ProjectInquiry` stores, and the response
reports, an `estimated_cost` equal to the pricing engine's
`calculate_project_cost` for the embedded option set; in particular a
`"standard"` inquiry with domain only and no database stores 89.98. -/
theorem C2_inquiry_cost_snapshot (st : DBState) (data : ProjectInquiryCreate)
    (uuid : String) (now : Nat) (insertedId : Option String)
    (h : validate_project_type data.project_type = true) :
    (submit_project_inquiry st data uuid now true insertedId).1.inquiries
      = st.inquiries ++ [mk_project_inquiry data
          (calculate_project_cost data.project_type data.include_domain
            data.include_database) uuid now] ∧
    (mk_project_inquiry data
        (calculate_project_cost data.project_type data.include_domain
          data.include_database) uuid now).estimated_cost
      = calculate_project_cost data.project_type data.include_domain
          data.include_database ∧
    (∃ resp, (submit_project_inquiry st data uuid now true insertedId).2 = .ok resp ∧
      resp.estimated_cost
        = calculate_project_cost data.project_type data.include_domain
            data.include_database) ∧
    (data.project_type = "standard" → data.include_domain = true →
      data.include_database = false →
      calculate_project_cost data.project_type data.include_domain
          data.include_database = 89.98) := by
  unfold submit_project_inquiry
  rw [h]
  exact ⟨rfl, rfl, ⟨_, rfl, rfl⟩, fun e1 e2 e3 => by rw [e1, e2, e3, cost_standard_tf]⟩

/-- Concrete inquiry payload used by the C2 witness. -/
def c2data : ProjectInquiryCreate :=
  { name := "Jane", email := "jane@example.com", project_type := "standard"
    include_domain := true, include_database := false, additional_details := none }

/-- Witness for C2 at a concrete `"standard"` inquiry with domain only. -/
theorem C2_inquiry_cost_snapshot_witness :
    (submit_project_inquiry emptyDB c2data "uuid-1" 5 true (some "oid-1")).1.inquiries
      = emptyDB.inquiries ++ [mk_project_inquiry c2data
          (calculate_project_cost c2data.project_type c2data.include_domain
            c2data.include_database) "uuid-1" 5] ∧
    (mk_project_inquiry c2data
        (calculate_project_cost c2data.project_type c2data.include_domain
          c2data.include_database) "uuid-1" 5).estimated_cost
      = calculate_project_cost c2data.project_type c2data.include_domain
          c2data.include_database ∧
    (∃ resp,
      (submit_project_inquiry emptyDB c2data "uuid-1" 5 true (some "oid-1")).2
        = .ok resp ∧
      resp.estimated_cost
        = calculate_project_cost c2data.project_type c2data.include_domain
            c2data.include_database) ∧
    (c2data.project_type = "standard" → c2data.include_domain = true →
      c2data.include_database = false →
      calculate_project_cost c2data.project_type c2data.include_domain
          c2data.include_database = 89.98) :=
  C2_inquiry_cost_snapshot emptyDB c2data "uuid-1" 5 (some "oid-1") (by decide)

/-- C4: for a valid project type, the generated summary has the title-cased
label, the per-type base cost, a total cost equal to
`calculate_project_cost`, the base feature list with each selected add-on's
features appended with a checkmark prefix (domain before database), the
add-on entries, the fixed 14-day timeline, and `"Basic"` support for basic
and `"Priority"` otherwise. -/
theorem C4_generate_summary (t : String) (dom db : Bool)
    (h : t = "basic" ∨ t = "standard") :
    (generate_project_summary t dom db).project_type
        = (if t = "basic" then "Basic" else "Standard") ∧
    (generate_project_summary t dom db).base_cost
        = (if t = "basic" then 49.99 else 69.99) ∧
    (generate_project_summary t dom db).total_cost = calculate_project_cost t dom db ∧
    (generate_project_summary t dom db).features
        = get_project_features t
          ++ (if dom then get_addon_features.domain.features.map (fun f => "✓ " ++ f)
              else [])
          ++ (if db then get_addon_features.database.features.map (fun f => "✓ " ++ f)
              else []) ∧
    (generate_project_summary t dom db).addons
        = (if dom then [{ name := get_addon_features.domain.name
                          cost := get_addon_features.domain.price
                          features := get_addon_features.domain.features }] else [])
          ++ (if db then [{ name := get_addon_features.database.name
                            cost := get_addon_features.database.price
                            features := get_addon_features.database.features }] else []) ∧
    (generate_project_summary t dom db).estimated_timeline = "14 days" ∧
    (generate_project_summary t dom db).support_level
        = (if t = "basic" then "Basic" else "Priority") := by
  rcases h with h | h <;> subst h <;> cases dom <;> cases db <;>
    simp [generate_project_summary, get_project_features, dict_lookup,
      features_dict, get_addon_features, pyTitle, titleChars, basic_features,
      standard_features]

/-- Witness for C4 at a `"standard"` summary with the domain add-on only. -/
theorem C4_generate_summary_witness :
    (generate_project_summary "standard" true false).project_type
        = (if "standard" = "basic" then "Basic" else "Standard") ∧
    (generate_project_summary "standard" true false).base_cost
        = (if "standard" = "basic" then 49.99 else 69.99) ∧
    (generate_project_summary "standard" true false).total_cost
        = calculate_project_cost "standard" true false ∧
    (generate_project_summary "standard" true false).features
        = get_project_features "standard"
          ++ (if true then get_addon_features.domain.features.map (fun f => "✓ " ++ f)
              else [])
          ++ (if false then get_addon_features.database.features.map (fun f => "✓ " ++ f)
              else []) ∧
    (generate_project_summary "standard" true false).addons
        = (if true then [{ name := get_addon_features.domain.name
                           cost := get_addon_features.domain.price
                           features := get_addon_features.domain.features }] else [])
          ++ (if false then [{ name := get_addon_features.database.name
                               cost := get_addon_features.database.price
                               features := get_addon_features.database.features }] else []) ∧
    (generate_project_summary "standard" true false).estimated_timeline = "14 days" ∧
    (generate_project_summary "standard" true false).support_level
        = (if "standard" = "basic" then "Basic" else "Priority") :=
  C4_generate_summary "standard" true false (Or.inr rfl)

/-- C5: `validate_project_type` accepts exactly the strings `"basic"` and
`"standard"`; the inquiry route fails with a 400 client error, leaving the
store untouched, exactly when validation fails, and the summary route fails
the same way for unrecognized types. -/
theorem C5_validation_gate :
    (∀ t, validate_project_type t = true ↔ (t = "basic" ∨ t = "standard")) ∧
    (∀ st data uuid now storeOk insertedId,
      ((submit_project_inquiry st data uuid now storeOk insertedId).2
          = .error { status_code := 400, detail := "Invalid project type" }
        ↔ validate_project_type data.project_type = false) ∧
      (validate_project_type data.project_type = false →
        (submit_project_inquiry st data uuid now storeOk insertedId).1 = st)) ∧
    (∀ t dom db,
      get_project_summary t dom db
          = .error { status_code := 400, detail := "Invalid project type" }
        ↔ validate_project_type t = false) := by
  refine ⟨?_, ?_, ?_⟩
  · intro t
    constructor
    · intro h
      by_cases h1 : t = "basic"
      · exact Or.inl h1
      · by_cases h2 : t = "standard"
        · exact Or.inr h2
        · exact absurd h (by simp [validate_project_type, h1, h2])
    · rintro (h | h) <;> subst h <;> decide
  · intro st data uuid now storeOk insertedId
    unfold submit_project_inquiry
    rcases hv : validate_project_type data.project_type <;> cases storeOk <;> simp
  · intro t dom db
    unfold get_project_summary
    rcases hv : validate_project_type t <;> simp

/-- Concrete invalid inquiry payload used by the C5 witness. -/
def c5data : ProjectInquiryCreate :=
  { name := "Sam", email := "sam@example.com", project_type := "premium"
    include_domain := false, include_database := false, additional_details := none }

/-- Witness for C5: an inquiry with the unrecognized type `"premium"`
leaves the store unchanged. -/
theorem C5_validation_gate_witness :
    (submit_project_inquiry emptyDB c5data "u1" 3 true none).1 = emptyDB :=
  (C5_validation_gate.2.1 emptyDB c5data "u1" 3 true none).2 (by decide)

/-- C6: the newsletter route returns a success-shaped response with
`success = true` for every input, including when the underlying store
operation fails. -/
theorem C6_newsletter_never_fails (st : DBState) (email uuid : String)
    (now : Nat) (storeOk : Bool) (insertedId : Option String) :
    (subscribe_newsletter_api st email uuid now storeOk insertedId).2.success
      = true := by
  unfold subscribe_newsletter_api
  cases storeOk <;> simp

/-- C3: subscribing an email twice never produces two subscriber records:
the first call inserts a record with `subscribed = true`, and a second call
with the same email updates the existing record (setting
`subscribed = true` and refreshing `updated_at`) and returns that updated
record, preserving the stored record's id. -/
theorem C3_newsletter_upsert (st : DBState) (email u1 u2 : String)
    (t1 t2 : Nat) (m1 m2 : Option String)
    (h : ∀ s ∈ st.subscribers, s.email ≠ email) :
    (subscribe_newsletter st email u1 t1 m1).1.subscribers
      = st.subscribers ++ [{ id := u1, email := email, subscribed := true
                             created_at := t1, updated_at := t1 }] ∧
    (subscribe_newsletter (subscribe_newsletter st email u1 t1 m1).1
        email u2 t2 m2).1.subscribers
      = st.subscribers ++ [{ id := u1, email := email, subscribed := true
                             created_at := t1, updated_at := t2 }] ∧
    (subscribe_newsletter (subscribe_newsletter st email u1 t1 m1).1
        email u2 t2 m2).2
      = some { id := u1, email := email, subscribed := true
               created_at := t1, updated_at := t2 } ∧
    ((subscribe_newsletter (subscribe_newsletter st email u1 t1 m1).1
          email u2 t2 m2).1.subscribers.filter
        (fun s => s.email = email)).length = 1 := by
  have hany1 : (st.subscribers.any fun s => decide (s.email = email)) = false :=
    List.any_eq_false.mpr (fun x hx => by simp [h x hx])
  have hnot : ¬ ((st.subscribers.any fun s => decide (s.email = email)) = true) := by
    simp [hany1]
  have hst1 : (subscribe_newsletter st email u1 t1 m1).1
      = { st with subscribers :=
            st.subscribers ++ [{ id := u1, email := email, subscribed := true
                                 created_at := t1, updated_at := t1 }] } := by
    unfold subscribe_newsletter
    rw [if_neg hnot]
  have hany2 : (((subscribe_newsletter st email u1 t1 m1).1).subscribers.any
      fun s => decide (s.email = email)) = true := by
    rw [hst1]
    refine List.any_eq_true.mpr ⟨_, List.mem_append_right _ (List.mem_singleton.mpr rfl), ?_⟩
    simp
  have hupd : resubscribe_first email t2
      ((subscribe_newsletter st email u1 t1 m1).1).subscribers
      = st.subscribers ++ [{ id := u1, email := email, subscribed := true
                             created_at := t1, updated_at := t2 }] := by
    rw [hst1]
    rw [resubscribe_first_append _ _ _ _ h]
    simp [resubscribe_first]
  have hst2 : subscribe_newsletter (subscribe_newsletter st email u1 t1 m1).1
        email u2 t2 m2
      = ({ (subscribe_newsletter st email u1 t1 m1).1 with subscribers :=
            st.subscribers ++ [{ id := u1, email := email, subscribed := true
                                 created_at := t1, updated_at := t2 }] },
          some { id := u1, email := email, subscribed := true
                 created_at := t1, updated_at := t2 }) := by
    rw [hst1] at hany2 hupd ⊢
    unfold subscribe_newsletter
    rw [if_pos hany2, hupd]
    rw [find_subscriber_append _ _ _ h]
    simp [List.find?]
  refine ⟨by rw [hst1], by rw [hst2], by rw [hst2], ?_⟩
  rw [hst2]
  simp only [List.filter_append]
  rw [List.filter_eq_nil_iff.mpr (fun a ha => by simp [h a ha])]
  simp

/-- Concrete unrelated subscriber used by the C3 witness. -/
def otherSub : NewsletterSubscriber :=
  { id := "s0", email := "other@example.com", subscribed := true
    created_at := 0, updated_at := 0 }

/-- Store holding one unrelated subscriber, used by the C3 witness. -/
def c3db : DBState := { contacts := [], inquiries := [], subscribers := [otherSub] }

/-- Witness for C3: double subscription of a fresh email in a store with
one unrelated subscriber. -/
theorem C3_newsletter_upsert_witness :
    (subscribe_newsletter c3db "new@example.com" "u1" 1 (some "oid-1")).1.subscribers
      = c3db.subscribers ++ [{ id := "u1", email := "new@example.com"
                               subscribed := true, created_at := 1, updated_at := 1 }] ∧
    (subscribe_newsletter
        (subscribe_newsletter c3db "new@example.com" "u1" 1 (some "oid-1")).1
        "new@example.com" "u2" 2 (some "oid-2")).1.subscribers
      = c3db.subscribers ++ [{ id := "u1", email := "new@example.com"
                               subscribed := true, created_at := 1, updated_at := 2 }] ∧
    (subscribe_newsletter
        (subscribe_newsletter c3db "new@example.com" "u1" 1 (some "oid-1")).1
        "new@example.com" "u2" 2 (some "oid-2")).2
      = some { id := "u1", email := "new@example.com", subscribed := true
               created_at := 1, updated_at := 2 } ∧
    ((subscribe_newsletter
          (subscribe_newsletter c3db "new@example.com" "u1" 1 (some "oid-1")).1
          "new@example.com" "u2" 2 (some "oid-2")).1.subscribers.filter
        (fun s => s.email = "new@example.com")).length = 1 :=
  C3_newsletter_upsert c3db "new@example.com" "u1" "u2" 1 2
    (some "oid-1") (some "oid-2") (by decide)

/-- C7: the stats query never throws: with a reachable store it returns the
collection counts plus the fixed constants (inquiries + 85 completed
projects, 100 satisfaction, 14-day turnaround, subscribed-only newsletter
count), and on any underlying failure it returns the fixed default stats
object instead of propagating the error. -/
theorem C7_stats (st : DBState) (storeOk : Bool) :
    get_company_stats_api st storeOk = .ok (get_company_stats st storeOk) ∧
    get_company_stats st true
      = { projects_completed := st.inquiries.length + 85
          client_satisfaction := 100
          average_turnaround := 14
          total_contacts := st.contacts.length
          total_inquiries := st.inquiries.length
          newsletter_subscribers :=
            (st.subscribers.filter (fun s => s.subscribed)).length } ∧
    get_company_stats st false = default_stats ∧
    default_stats
      = { projects_completed := 100, client_satisfaction := 100
          average_turnaround := 14, total_contacts := 0, total_inquiries := 0
          newsletter_subscribers := 0 } := by
  exact ⟨rfl, rfl, rfl, rfl⟩

/-- A single contact record duplicated below to exhibit a store content on
which the two pages of C8 are not disjoint. -/
def dupContact : ContactSubmission :=
  { id := "c1", name := "Ann", email := "ann@example.com", company := none
    project := none, message := "hello", budget := none, status := "new"
    created_at := 5, updated_at := 5 }

/-- A store holding eleven copies of the same contact record. -/
def dupDB : DBState :=
  { contacts := List.replicate 11 dupContact, inquiries := [], subscribers := [] }

/-- C8 counterexample: with eleven identical records in the store, the
record appears both in `listContacts(0, 10)` and in `listContacts(10, 10)`,
so the two pages are not disjoint sets for arbitrary store contents. -/
theorem C8_pagination_counterexample :
    ∃ x, x ∈ get_contacts dupDB 0 10 ∧ x ∈ get_contacts dupDB 10 10 :=
  ⟨dupContact, by decide, by decide⟩

/-- C8 (amended): whenever the stored contact records are pairwise
distinct, `listContacts(0, 10)` and `listContacts(10, 10)` are disjoint;
for any store contents whatsoever their concatenation, in order, equals
`listContacts(0, 20)` and every page is sorted by `created_at`
descending. -/
theorem C8_pagination (st : DBState) :
    (st.contacts.Nodup →
      ∀ x ∈ get_contacts st 0 10, x ∉ get_contacts st 10 10) ∧
    get_contacts st 0 10 ++ get_contacts st 10 10 = get_contacts st 0 20 ∧
    List.Sorted byCreatedDesc (get_contacts st 0 10) ∧
    List.Sorted byCreatedDesc (get_contacts st 10 10) ∧
    List.Sorted byCreatedDesc (get_contacts st 0 20) := by
  have hperm := List.perm_insertionSort byCreatedDesc st.contacts
  have hsort := List.sorted_insertionSort byCreatedDesc st.contacts
  refine ⟨?_, ?_, ?_, ?_, ?_⟩
  · intro h x hx1 hx2
    have hnd : (st.contacts.insertionSort byCreatedDesc).Nodup := hperm.nodup_iff.mpr h
    have hdisj : (List.take 10 (st.contacts.insertionSort byCreatedDesc)).Disjoint
        (List.drop 10 (st.contacts.insertionSort byCreatedDesc)) := by
      rw [← List.take_append_drop 10 (st.contacts.insertionSort byCreatedDesc)] at hnd
      exact (List.nodup_append.mp hnd).2.2
    have hx1' : x ∈ List.take 10 (st.contacts.insertionSort byCreatedDesc) := by
      simpa [get_contacts] using hx1
    have hx2' : x ∈ List.drop 10 (st.contacts.insertionSort byCreatedDesc) := by
      simp only [get_contacts] at hx2
      exact List.take_subset _ _ hx2
    exact hdisj hx1' hx2'
  · simp only [get_contacts, List.drop_zero]
    exact (List.take_add (st.contacts.insertionSort byCreatedDesc) 10 10).symm
  · exact List.Pairwise.sublist
      ((List.take_sublist _ _).trans (List.drop_sublist _ _)) hsort
  · exact List.Pairwise.sublist
      ((List.take_sublist _ _).trans (List.drop_sublist _ _)) hsort
  · exact List.Pairwise.sublist
      ((List.take_sublist _ _).trans (List.drop_sublist _ _)) hsort

/-- A store with two distinct contacts, used by the C8 witness. -/
def pageDB : DBState :=
  { contacts :=
      [{ id := "a1", name := "A", email := "a@example.com", company := none
         project := none, message := "m1", budget := none, status := "new"
         created_at := 2, updated_at := 2 },
       { id := "a2", name := "B", email := "b@example.com", company := none
         project := none, message := "m2", budget := none, status := "new"
         created_at := 1, updated_at := 1 }]
    inquiries := [], subscribers := [] }

/-- Witness for the amended C8 at a concrete two-contact store, with the
distinctness premise of the disjointness part discharged there. -/
theorem C8_pagination_witness :
    (∀ x ∈ get_contacts pageDB 0 10, x ∉ get_contacts pageDB 10 10) ∧
    get_contacts pageDB 0 10 ++ get_contacts pageDB 10 10
      = get_contacts pageDB 0 20 ∧
    List.Sorted byCreatedDesc (get_contacts pageDB 0 10) ∧
    List.Sorted byCreatedDesc (get_contacts pageDB 10 10) ∧
    List.Sorted byCreatedDesc (get_contacts pageDB 0 20) :=
  ⟨(C8_pagination pageDB).1 (by decide), (C8_pagination pageDB).2.1,
   (C8_pagination pageDB).2.2.1, (C8_pagination pageDB).2.2.2.1,
   (C8_pagination pageDB).2.2.2.2⟩

/-- Concrete contact payload used to exhibit the C9 divergence. -/
def c9data : ContactSubmissionCreate :=
  { name := "Bob", email := "bob@example.com", company := none, project := none
    message := "hi", budget := none }

/-- C9: `create_contact` does assign `status = "new"` and
`created_at = updated_at = now` and persists the record, but when the store
reports a generated `inserted_id` (as MongoDB always does for documents
inserted without an `_id`), the returned record's `id` is overwritten with
that id while the persisted document keeps the original uuid, so the
returned id differs from the persisted `id` field and a status update using
the returned id matches nothing. -/
theorem C9_returned_id_diverges :
    (create_contact emptyDB c9data "uuid-abc" 7 (some "mongo-oid")).1.contacts
      = [mk_contact c9data "uuid-abc" 7] ∧
    (mk_contact c9data "uuid-abc" 7).status = "new" ∧
    (mk_contact c9data "uuid-abc" 7).created_at = 7 ∧
    (mk_contact c9data "uuid-abc" 7).updated_at = 7 ∧
    (create_contact emptyDB c9data "uuid-abc" 7 (some "mongo-oid")).2.id
      = "mongo-oid" ∧
    (mk_contact c9data "uuid-abc" 7).id = "uuid-abc" ∧
    ¬ (create_contact emptyDB c9data "uuid-abc" 7 (some "mongo-oid")).2.id
        = (mk_contact c9data "uuid-abc" 7).id ∧
    (update_contact_status
        (create_contact emptyDB c9data "uuid-abc" 7 (some "mongo-oid")).1
        (create_contact emptyDB c9data "uuid-abc" 7 (some "mongo-oid")).2.id
        "contacted" 8).2 = false := by
  decide

/-- C10: for project types outside the catalog, the summary's `base_cost`
is 69.99 and `support_level` is `"Priority"` (the Standard values), while
`total_cost` and `features` fall back to the Basic catalog, so with no
add-ons selected `base_cost` exceeds `total_cost`. -/
theorem C10_unknown_type (t : String) (dom db : Bool)
    (h1 : t ≠ "basic") (h2 : t ≠ "standard") :
    (generate_project_summary t dom db).base_cost = 69.99 ∧
    (generate_project_summary t dom db).support_level = "Priority" ∧
    (generate_project_summary t dom db).total_cost
      = 49.99 + (if dom then 19.99 else 0) + (if db then 29.99 else 0) ∧
    (generate_project_summary t dom db).features
      = basic_features
        ++ (if dom then get_addon_features.domain.features.map (fun f => "✓ " ++ f)
            else [])
        ++ (if db then get_addon_features.database.features.map (fun f => "✓ " ++ f)
            else []) ∧
    (generate_project_summary t false false).base_cost
      > (generate_project_summary t false false).total_cost := by
  have hcost := cost_unknown t dom db h1 h2
  have hcost00 := cost_unknown t false false h1 h2
  refine ⟨?_, ?_, ?_, ?_, ?_⟩ <;>
    cases dom <;> cases db <;>
      simp [generate_project_summary, get_project_features, dict_lookup,
        features_dict, get_addon_features, basic_features, h1, h2,
        hcost, hcost00] <;>
      norm_num

/-- Witness for C10 at the unrecognized project type `"premium"` with the
domain add-on selected. -/
theorem C10_unknown_type_witness :
    (generate_project_summary "premium" true false).base_cost = 69.99 ∧
    (generate_project_summary "premium" true false).support_level = "Priority" ∧
    (generate_project_summary "premium" true false).total_cost
      = 49.99 + (if true then 19.99 else 0) + (if false then 29.99 else 0) ∧
    (generate_project_summary "premium" true false).features
      = basic_features
        ++ (if true then get_addon_features.domain.features.map (fun f => "✓ " ++ f)
            else [])
        ++ (if false then get_addon_features.database.features.map (fun f => "✓ " ++ f)
            else []) ∧
    (generate_project_summary "premium" false false).base_cost
      > (generate_project_summary "premium" false false).total_cost :=
  C10_unknown_type "premium" true false (by decide) (by decide)

end DevSites
